import Mathlib

/-!
Verification of the inflation dashboard script
(`src/inflation_inference_app.py`) against its specification.

The script is a straight-line Streamlit program.  We embed it as a pure
function from an environment (the merged dataset, the result of
deserializing the model artifact, the fixed test tables, and the optional
user upload) to the list of rendered outputs together with an optional
uncaught Python exception.  An uncaught exception stops the run at that
point: outputs rendered before it are kept, everything after it is
skipped, and the hosting framework surfaces the exception (that framework
behaviour is the `Option PyErr` component of the result).
-/

namespace InfApp

/-- Python exceptions that the script can raise or catch. -/
inductive PyErr where
  | keyError (key : String)
  | attributeError (attr : String)
  | valueError (msg : String)
  | other (msg : String)
deriving DecidableEq

/-- Rendering of an exception inside an f-string, as in
`st.error(f"❌ Error making predictions: {e}")`. -/
def PyErr.message : PyErr → String
  | .keyError k => "KeyError: " ++ k
  | .attributeError a => "AttributeError: " ++ a
  | .valueError m => "ValueError: " ++ m
  | .other m => m

/-- A pandas DataFrame: a header of column names and a list of rows of
numeric values (row-oriented, as pandas rows).  Numeric cells are modelled
as rationals. -/
structure DF where
  header : List String
  rows : List (List ℚ)
deriving DecidableEq

/-- Column presence, `c in df.columns`. -/
def DF.has (df : DF) (c : String) : Bool :=
  df.header.contains c

/-- Column extraction `df[c]` (meaningful when `df.has c`). -/
def DF.col (df : DF) (c : String) : List ℚ :=
  df.rows.map (fun r => r.getD (df.header.indexOf c) 0)

/-- Row count `len(df)`. -/
def DF.nrows (df : DF) : ℕ := df.rows.length

/-- `df.sort_values(c)`: reorder the rows ascending by the value in
column `c`. -/
def DF.sortRows (df : DF) (c : String) : DF :=
  ⟨df.header,
   List.insertionSort
     (fun r s => r.getD (df.header.indexOf c) 0 ≤ s.getD (df.header.indexOf c) 0)
     df.rows⟩

/-- An estimator object: the `predict` capability and the optional
`feature_importances_` attribute (`none` models the attribute being
absent, so that reading it raises `AttributeError`). -/
structure Estimator where
  predictFn : DF → Except PyErr (List ℚ)
  featImportances : Option (List ℚ)

/-- The object returned by `joblib.load`: its own duck-typed attributes
(`predict`, `feature_importances_`) together with the optional
search-wrapper attributes `best_estimator_` / `best_params_` that a
hyperparameter-search artifact would carry. -/
structure Artifact where
  predictFn : DF → Except PyErr (List ℚ)
  featImportances : Option (List ℚ)
  bestEstimator : Option Estimator
  bestParams : Option (List (String × ℚ))

/-- The attributes of the loaded object that the script actually
consults: line 151/206 call `model.predict` and line 169 reads
`model.feature_importances_`, always on the loaded object itself
(line 127 binds `model = joblib.load(...)` directly). -/
def usedPredictor (a : Artifact) : Estimator :=
  ⟨a.predictFn, a.featImportances⟩

/-- Modelled from the spec: the ModelLoader normalization the spec
describes (spec §4.3) but which is absent from the source.  If the
artifact exposes a best-estimator capability, extract the inner estimator
and its best-parameter record; otherwise use the artifact itself and
report best-parameters as unavailable. -/
def modelLoaderSpec (a : Artifact) : Estimator × Option (List (String × ℚ)) :=
  match a.bestEstimator with
  | some e => (e, a.bestParams)
  | none => (⟨a.predictFn, a.featImportances⟩, none)

/-- Everything the script observes from outside: the merged dataset as
parsed by `pd.read_csv("merge_data.csv")`, the result of
`joblib.load("inflation_model.pkl")`, the two test tables, and the
optional user upload (`none` = no file uploaded; `some r` = a file whose
`pd.read_csv` parse gives `r`). -/
structure Env where
  merge : DF
  modelLoad : Except PyErr Artifact
  xTest : DF
  yTest : List ℚ
  upload : Option (Except PyErr DF)

/-- One rendered element of the page. -/
inductive Out where
  | text (s : String)
  | download (fname : String)
  | trendChart (lines : List String)
  | heatmap (cols : List String) (data : List (List ℚ))
  | hist (c : String)
  | predictionPreview (rows : List (ℚ × ℚ))
  | importanceChart (top : List (String × ℚ))
  | importanceTable (top : List (String × ℚ))
  | uploadPreview (rows : List (List ℚ))
  | userPredPreview (preds : List ℚ)
  | errorMsg (s : String)
deriving DecidableEq

/-- The three inflation indicator columns of the trend chart (line 88). -/
def inflationVars : List String :=
  ["allItemsYearOn", "foodYearOn", "allItemsLessFrmProdAndEnergyYearOn"]

/-- The candidate columns of the correlation heatmap (line 106). -/
def corrCandidates : List String :=
  ["allItemsYearOn", "moneySupply_M3", "moneySupply_M2", "narrowMoney"]

/-- First column of `cs` that is absent from `df` (the one whose access
raises `KeyError` first). -/
def firstMissing (df : DF) (cs : List String) : Option String :=
  cs.find? (fun c => !df.has c)

def introText : String := "This project merges Inflation, Crude Oil, MPR, Money Supply, etc."
def dataSourcesText : String := "Data Sources"
def dataDictText : String := "Data Dictionary"
def edaHeader : String := "Exploratory Data Analysis"
def trendNarrative : String := "Overall inflation shows steady increases from mid-2021"
def corrNarrative : String := "High positive correlation"
def distHeader1 : String := "Distribution of Inflation"
def distHeader2 : String := "Distribution of Broad Money Supply (M3)"
def modelHeader : String := "Inflation Prediction Model"
def importanceHeader : String := "Top 15 Most Important Features in Predicting Inflation"
def uploadHeader : String := "Upload Your Own CSV to Make Predictions"
def uploadedMsg : String := "File Uploaded Successfully! Preview:"
def predsPreviewHeader : String := "Predictions Preview"
def footerText : String := "Contact: nosakhareasowata94@gmail.com"

/-- Outputs rendered before the dataset is first accessed (lines 22-70):
title, intro, data sources, data dictionary, EDA header. -/
def preamble : List Out :=
  [.text "Inflation Inference Dashboard", .text introText, .text dataSourcesText,
   .text dataDictText, .text edaHeader]

/-- Lines 88-96: iterate over `inflation_vars`, reading `merge_df[col]`
for each; the first absent column raises `KeyError` (and then no chart is
shown, since `st.pyplot` comes after the loop).  When all three are
present the chart with the three labeled lines is rendered. -/
def trendStep (df : DF) : Except PyErr Out :=
  match firstMissing df inflationVars with
  | some c => .error (.keyError c)
  | none => .ok (.trendChart inflationVars)

/-- Lines 106-109: `merge_df[[...]].corr()`; selecting the fixed
four-column list raises `KeyError` when any candidate is absent,
otherwise the heatmap over the four columns is rendered. -/
def heatmapStep (df : DF) : Except PyErr Out :=
  match firstMissing df corrCandidates with
  | some c => .error (.keyError c)
  | none => .ok (.heatmap corrCandidates (corrCandidates.map df.col))

/-- Lines 114-121: `sns.histplot(merge_df[c], ...)`; a missing column
raises `KeyError`. -/
def histStep (df : DF) (c : String) : Except PyErr Out :=
  if df.has c then .ok (.hist c) else .error (.keyError c)

/-- Lines 22-124: the part of the script before `joblib.load`.  Line 74
reads `merge_df["period"]` unconditionally, so a dataset without that
column raises `KeyError` right after the preamble; otherwise the rows are
sorted by `period` and the charts are attempted in order. -/
def edaRun (merge : DF) : List Out × Option PyErr :=
  if merge.has "period" then
    let df := merge.sortRows "period"
    let os := preamble ++ [.download "merge_data.csv"]
    match trendStep df with
    | .error e => (os, some e)
    | .ok t =>
      let os := os ++ [t, .text trendNarrative]
      match heatmapStep df with
      | .error e => (os, some e)
      | .ok hm =>
        let os := os ++ [hm, .text corrNarrative, .text distHeader1]
        match histStep df "allItemsYearOn" with
        | .error e => (os, some e)
        | .ok h1 =>
          let os := os ++ [h1, .text distHeader2]
          match histStep df "moneySupply_M3" with
          | .error e => (os, some e)
          | .ok h2 => (os ++ [h2, .text modelHeader], none)
  else (preamble, some (.keyError "period"))

/-- Line 153: `model_prediction_df["True Values"] = y_test.values`.
pandas accepts the positional assignment exactly when the assigned array
has as many entries as the frame has rows, and raises `ValueError`
otherwise. -/
def assignTrueValues (preds : List ℚ) (yvals : List ℚ) :
    Except PyErr (List (ℚ × ℚ)) :=
  if yvals.length = preds.length then .ok (preds.zip yvals)
  else .error (.valueError "Length of values does not match length of index")

/-- Descending comparison on importance-scored features, the sort key of
`sort_values("Importance", ascending=False)`. -/
def impRel (p q : String × ℚ) : Prop := q.2 ≤ p.2

instance : DecidableRel impRel :=
  fun p q => inferInstanceAs (Decidable (q.2 ≤ p.2))

instance : IsTotal (String × ℚ) impRel :=
  ⟨fun a b => le_total b.2 a.2⟩

instance : IsTrans (String × ℚ) impRel :=
  ⟨fun _ _ _ h1 h2 => le_trans h2 h1⟩

/-- Lines 173-177: pair each feature name with its importance score,
sort descending by score, keep the first 15 rows. -/
def featureImportanceTop15 (features : List String) (imps : List ℚ) :
    List (String × ℚ) :=
  (List.insertionSort impRel (features.zip imps)).take 15

/-- Lines 169-193: read `model.feature_importances_` (raising
`AttributeError` when the attribute is absent), build the two-column
frame (pandas raises `ValueError` when the two arrays differ in length),
then render the bar chart and the formatted table of the top 15. -/
def importanceOuts (a : Artifact) (x : DF) : Except PyErr (List Out) :=
  match a.featImportances with
  | none => .error (.attributeError "feature_importances_")
  | some imps =>
    if x.header.length = imps.length then
      let top := featureImportanceTop15 x.header imps
      .ok [.importanceChart top, .importanceTable top]
    else .error (.valueError "All arrays must be of the same length")

/-- Lines 130-193: the model-dependent part after a successful
`joblib.load`: test-table download buttons, `model.predict(x_test)`, the
comparison table, its preview and download, and the importance
section. -/
def modelBody (a : Artifact) (x : DF) (y : List ℚ) : List Out × Option PyErr :=
  let os : List Out := [.download "x_test.csv", .download "y_test.csv"]
  match a.predictFn x with
  | .error e => (os, some e)
  | .ok preds =>
    match assignTrueValues preds y with
    | .error e => (os, some e)
    | .ok table =>
      let os := os ++ [.predictionPreview (table.take 5),
        .download "inflation_predictions.csv", .text importanceHeader]
      match importanceOuts a x with
      | .error e => (os, some e)
      | .ok ios => (os ++ ios, none)

/-- Lines 195-221: the upload section.  The section header and uploader
widget always render; with no file the section ends.  `pd.read_csv` of
the uploaded file runs outside any `try`, so a parse failure is an
uncaught exception.  On a successful parse the preview renders, and only
then is `model.predict` attempted inside `try/except`: its failure is
caught and rendered as `st.error(f"❌ Error making predictions: {e}")`. -/
def uploadRun (a : Artifact) (u : Option (Except PyErr DF)) :
    List Out × Option PyErr :=
  match u with
  | none => ([.text uploadHeader], none)
  | some (.error e) => ([.text uploadHeader], some e)
  | some (.ok udf) =>
    let os : List Out := [.text uploadHeader, .text uploadedMsg,
      .uploadPreview (udf.rows.take 5)]
    match a.predictFn udf with
    | .ok preds => (os ++ [.text predsPreviewHeader,
        .userPredPreview (preds.take 5),
        .download "user_inflation_predictions.csv"], none)
    | .error e => (os ++ [.errorMsg ("Error making predictions: " ++ e.message)], none)

/-- Sequence two script fragments: an uncaught exception in the first
stops the run (framework keeps the outputs so far and surfaces the
exception); otherwise the second fragment runs and its outputs are
appended. -/
def seqRun (p : List Out × Option PyErr) (k : Unit → List Out × Option PyErr) :
    List Out × Option PyErr :=
  match p with
  | (os, some e) => (os, some e)
  | (os, none) => ((os ++ (k ()).1 : List Out), (k ()).2)

/-- The whole script, top to bottom: EDA part, then `joblib.load`
(line 127, unguarded: a deserialization failure is an uncaught
exception), then the model-dependent part, the upload section, and the
footer (lines 224-228). -/
def runApp (env : Env) : List Out × Option PyErr :=
  seqRun (edaRun env.merge) (fun _ =>
    match env.modelLoad with
    | .error e => ([], some e)
    | .ok a =>
      seqRun (modelBody a env.xTest env.yTest) (fun _ =>
        seqRun (uploadRun a env.upload) (fun _ =>
          ([.text footerText], none))))

/-! ### Pearson correlation (the mathematics of `DataFrame.corr()`) -/

/-- Arithmetic mean of a column. -/
def mean (xs : List ℚ) : ℚ := xs.sum / xs.length

/-- Deviations from the mean. -/
def dev (xs : List ℚ) : List ℚ := xs.map (fun x => x - mean xs)

/-- Pointwise product sum of two columns (up to the shorter length). -/
def dot (xs ys : List ℚ) : ℚ := ((xs.zip ys).map (fun p => p.1 * p.2)).sum

/-- Centered cross-product sum `Σ (x - x̄)(y - ȳ)`. -/
def covSum (xs ys : List ℚ) : ℚ := dot (dev xs) (dev ys)

/-- Pearson correlation coefficient
`Σ dx dy / (√(Σ dx²) · √(Σ dy²))`, the entry of `DataFrame.corr()`. -/
noncomputable def pearson (xs ys : List ℚ) : ℝ :=
  (covSum xs ys : ℝ) /
    (Real.sqrt ((covSum xs xs : ℚ) : ℝ) * Real.sqrt ((covSum ys ys : ℚ) : ℝ))

/-- Entry `(i, j)` of the correlation matrix rendered by the heatmap,
over the list of selected columns. -/
noncomputable def corrEntry (data : List (List ℚ)) (i j : ℕ) : ℝ :=
  pearson (data.getD i []) (data.getD j [])

/-- Strict-descent check on a list of scores (used to state the
"strictly descending" part of the spec's importance example). -/
def strictDescB : List ℚ → Bool
  | [] => true
  | [_] => true
  | a :: b :: t => (decide (b < a)) && strictDescB (b :: t)

/-! ### Concrete data used in counterexamples and witnesses -/

/-- A merged dataset carrying `period` and every column the script
touches. -/
def dfFull : DF :=
  ⟨["period", "allItemsYearOn", "foodYearOn", "allItemsLessFrmProdAndEnergyYearOn",
    "moneySupply_M3", "moneySupply_M2", "narrowMoney"],
   [[2, 10, 12, 9, 50, 40, 20], [1, 11, 13, 8, 52, 41, 21]]⟩

/-- A merged dataset with no `period` column. -/
def dfNoPeriod : DF := ⟨["allItemsYearOn"], [[1]]⟩

/-- A merged dataset with `period` and two of the three inflation
indicator columns (`allItemsLessFrmProdAndEnergyYearOn` absent). -/
def dfC5 : DF := ⟨["period", "allItemsYearOn", "foodYearOn"], [[1, 2, 3]]⟩

/-- A merged dataset with exactly two of the four correlation candidate
columns. -/
def dfC6 : DF := ⟨["allItemsYearOn", "moneySupply_M3"], [[1, 2]]⟩

/-- The fixed test feature table. -/
def xTestDF : DF := ⟨["f1", "f2"], [[1, 2], [3, 4]]⟩

/-- A bare-estimator artifact with a working `predict` and a
`feature_importances_` attribute. -/
def artifactGood : Artifact :=
  ⟨fun df => .ok (List.replicate df.rows.length 1), some [3, 7], none, none⟩

/-- A bare-estimator artifact lacking `feature_importances_`. -/
def artifactNoImp : Artifact :=
  ⟨fun df => .ok (List.replicate df.rows.length 1), none, none, none⟩

/-- The inner estimator of a search-wrapper artifact; it does carry
importances. -/
def innerEst : Estimator := ⟨fun _ => .ok [], some [1]⟩

/-- A search-wrapper artifact: it exposes `best_estimator_` and
`best_params_`, but itself has no `feature_importances_` attribute. -/
def artifactWrap : Artifact :=
  ⟨fun df => .ok (List.replicate df.rows.length 1), none, some innerEst,
   some [("alpha", 1)]⟩

/-- An artifact whose `predict` checks the training schema and fails on
any other header. -/
def artifactC7 : Artifact :=
  ⟨fun df =>
     if df.header = ["f1", "f2"] then .ok (List.replicate df.rows.length 1)
     else .error (.valueError "feature names mismatch"),
   some [3, 7], none, none⟩

/-- An uploaded table whose header does not match the training schema. -/
def uploadBadDF : DF := ⟨["g"], [[9]]⟩

/-- A healthy environment: full dataset, working model, aligned test
tables, no upload. -/
def envBase : Env := ⟨dfFull, .ok artifactGood, xTestDF, [5, 6], none⟩

/-- Environment whose merged dataset lacks `period`. -/
def envC1 : Env := ⟨dfNoPeriod, .ok artifactGood, xTestDF, [5, 6], none⟩

/-- Environment where `joblib.load` fails. -/
def envC2 : Env := ⟨dfFull, .error (.other "corrupt artifact"), xTestDF, [5, 6], none⟩

/-- Environment whose loaded artifact is a search wrapper. -/
def envC3 : Env := { envBase with modelLoad := .ok artifactWrap }

/-- Environment whose loaded artifact lacks the importance capability. -/
def envC4 : Env := { envBase with modelLoad := .ok artifactNoImp }

/-- Environment whose merged dataset lacks one inflation indicator. -/
def envC5 : Env := { envBase with merge := dfC5 }

/-- Environment with a well-formed upload that the model rejects. -/
def envC7 : Env :=
  ⟨dfFull, .ok artifactC7, xTestDF, [5, 6], some (.ok uploadBadDF)⟩

/-- Environment with an upload that fails to parse as CSV. -/
def envC9 : Env := { envBase with upload := some (.error (.other "ParserError")) }

/-- Environment whose label table has fewer rows than the predictions. -/
def envC10 : Env := { envBase with yTest := [5] }

/-- Sixteen feature names. -/
def f16 : List String :=
  ["a", "b", "c", "d", "e", "f", "g", "h", "i", "j", "k", "l", "m", "n", "o", "p"]

/-- Sixteen equal importance scores. -/
def i16 : List ℚ := List.replicate 16 2

/-! ### Helper lemmas -/

theorem prodEtaNone {α β : Type} (p : α × Option β) (h : p.2 = none) :
    p = (p.1, none) := by
  rw [← h]

theorem seqRun_halt (os : List Out) (e : PyErr)
    (k : Unit → List Out × Option PyErr) : seqRun (os, some e) k = (os, some e) := rfl

theorem seqRun_go (os : List Out) (k : Unit → List Out × Option PyErr) :
    seqRun (os, none) k = (os ++ (k ()).1, (k ()).2) := rfl

theorem dot_nil_left (ys : List ℚ) : dot [] ys = 0 := rfl

theorem dot_nil_right (xs : List ℚ) : dot xs [] = 0 := by
  simp [dot]

theorem dot_cons_cons (x y : ℚ) (xs ys : List ℚ) :
    dot (x :: xs) (y :: ys) = x * y + dot xs ys := by
  simp [dot]

theorem dot_comm (xs ys : List ℚ) : dot xs ys = dot ys xs := by
  induction xs generalizing ys with
  | nil => cases ys <;> simp [dot]
  | cons x xs ih =>
    cases ys with
    | nil => simp [dot]
    | cons y ys => rw [dot_cons_cons, dot_cons_cons, ih, mul_comm]

theorem dot_self_nonneg (xs : List ℚ) : 0 ≤ dot xs xs := by
  induction xs with
  | nil => simp [dot]
  | cons x xs ih =>
    rw [dot_cons_cons]
    exact add_nonneg (mul_self_nonneg x) ih

theorem covSum_comm (xs ys : List ℚ) : covSum xs ys = covSum ys xs :=
  dot_comm _ _

theorem covSum_self_nonneg (xs : List ℚ) : 0 ≤ covSum xs xs :=
  dot_self_nonneg _

theorem pearson_comm (xs ys : List ℚ) : pearson xs ys = pearson ys xs := by
  unfold pearson
  rw [covSum_comm xs ys, mul_comm]

theorem pearson_self (xs : List ℚ) (h : covSum xs xs ≠ 0) : pearson xs xs = 1 := by
  unfold pearson
  rw [Real.mul_self_sqrt (by exact_mod_cast covSum_self_nonneg xs)]
  exact div_self (by exact_mod_cast h)

theorem corrEntry_symm (data : List (List ℚ)) (i j : ℕ) :
    corrEntry data i j = corrEntry data j i :=
  pearson_comm _ _

theorem corrEntry_diag (data : List (List ℚ)) (i : ℕ)
    (h : covSum (data.getD i []) (data.getD i []) ≠ 0) :
    corrEntry data i i = 1 :=
  pearson_self _ h

/-- Decomposition of a run that reaches the upload section: when the EDA
part, the model load and the model body all succeed, the outputs are the
EDA outputs, then the model outputs, then whatever the upload section and
footer produce. -/
theorem runApp_decomp (env : Env) (a : Artifact)
    (hm : env.modelLoad = .ok a)
    (he : (edaRun env.merge).2 = none)
    (hb : (modelBody a env.xTest env.yTest).2 = none) :
    runApp env =
      ((edaRun env.merge).1 ++ (modelBody a env.xTest env.yTest).1 ++
        (seqRun (uploadRun a env.upload) (fun _ => ([.text footerText], none))).1,
       (seqRun (uploadRun a env.upload) (fun _ => ([.text footerText], none))).2) := by
  have hE : edaRun env.merge = ((edaRun env.merge).1, none) := prodEtaNone _ he
  have hB : modelBody a env.xTest env.yTest =
      ((modelBody a env.xTest env.yTest).1, none) := prodEtaNone _ hb
  unfold runApp
  rw [hE, hm]
  simp only [seqRun]
  rw [hB]
  simp only [seqRun]
  simp [List.append_assoc]

/-! ### Claims -/

/-- C1 counterexample: the claim says a merged dataset without `period`
does not make the DataLoader fail and every later pipeline stage still
runs.  On `envC1` (dataset `dfNoPeriod`, everything else healthy) the run
instead stops with an uncaught `KeyError "period"` raised by line 74
(`pd.to_datetime(merge_df["period"])`), and only the narrative preamble
is rendered — no trend chart, no correlation, no distributions, no model
section. -/
theorem C1_counterexample :
    runApp envC1 = (preamble, some (PyErr.keyError "period")) ∧
    (runApp envC1).2 ≠ none := by
  exact ⟨by decide, by decide⟩

/-- C1 (amended): for every environment whose merged dataset lacks a
`period` column, the unconditional `merge_df["period"]` access raises an
uncaught `KeyError "period"`; only the narrative preamble renders and the
whole rest of the pipeline (trend chart, correlation, distributions,
model loading, prediction, importance ranking, upload, footer) is
skipped. -/
theorem C1_amended (env : Env) (h : env.merge.has "period" = false) :
    runApp env = (preamble, some (PyErr.keyError "period")) := by
  simp [runApp, edaRun, h, seqRun]

theorem C1_witness :
    envC1.merge.has "period" = false ∧
    runApp envC1 = (preamble, some (PyErr.keyError "period")) :=
  ⟨by decide, C1_amended envC1 (by decide)⟩

/-- C2 counterexample: the claim says that on a model-load failure "only
model-dependent processing halts".  On `envC2` (`joblib.load` fails with
`other "corrupt artifact"`) the uncaught exception stops the script, so
the footer (lines 224-228), which does not depend on the model, is also
never rendered. -/
theorem C2_counterexample :
    (runApp envC2).2 = some (PyErr.other "corrupt artifact") ∧
    Out.text footerText ∉ (runApp envC2).1 := by
  exact ⟨by decide, by decide⟩

/-- C2 (amended): if `joblib.load` fails, the exception is uncaught: the
framework surfaces it, the sections already rendered above (narrative and
charts) are exactly the outputs of the EDA part and are unaffected, and
everything after the load — the model-dependent sections and also the
non-model-dependent footer — is skipped. -/
theorem C2_amended (env : Env) (e : PyErr) (hm : env.modelLoad = .error e)
    (he : (edaRun env.merge).2 = none) :
    runApp env = ((edaRun env.merge).1, some e) := by
  unfold runApp
  rw [prodEtaNone _ he]
  simp [seqRun, hm]

theorem C2_witness :
    envC2.modelLoad = Except.error (PyErr.other "corrupt artifact") ∧
    (edaRun envC2.merge).2 = none ∧
    runApp envC2 = ((edaRun envC2.merge).1, some (PyErr.other "corrupt artifact")) :=
  ⟨rfl, by decide, C2_amended envC2 _ rfl (by decide)⟩

/-- C3 counterexample: the claim says the loader normalizes a
search-wrapper artifact by extracting the inner estimator (and its
best-parameter record).  Line 127 binds the loaded object directly
(`model = joblib.load(...)`, commented "Directly use trained model"), so
on the wrapper artifact `artifactWrap` the predictor the script uses has
no importances while the inner estimator the spec would extract does;
consequently the run `envC3` crashes with `AttributeError` in the
importance section instead of using the extracted estimator. -/
theorem C3_counterexample :
    (usedPredictor artifactWrap).featImportances ≠
      ((modelLoaderSpec artifactWrap).1).featImportances ∧
    (runApp envC3).2 = some (PyErr.attributeError "feature_importances_") := by
  exact ⟨by decide, by decide⟩

/-- C3 (amended): no normalization happens: the loaded artifact is used
directly as the predictor in both cases, the script consults only the
artifact's own `predict` and `feature_importances_` attributes, and the
entire run is invariant under the artifact's `best_estimator_` /
`best_params_` attributes (no best-parameter record is ever extracted or
reported). -/
theorem C3_amended (env : Env) (a : Artifact) (be : Option Estimator)
    (bp : Option (List (String × ℚ))) :
    runApp { env with modelLoad := .ok { a with bestEstimator := be, bestParams := bp } } =
      runApp { env with modelLoad := .ok a } := rfl

/-- C4 counterexample: the claim says a predictor without the
feature-importance capability leads to an informational notice and no
error.  On `envC4` (artifact with no `feature_importances_` attribute,
everything else healthy) the attribute read at line 169 raises an
uncaught `AttributeError` that terminates the rest of the page. -/
theorem C4_counterexample :
    (runApp envC4).2 = some (PyErr.attributeError "feature_importances_") := by
  decide

/-- C4 (amended): for every loaded predictor without the
feature-importance capability, the importance section renders nothing and
raises an uncaught `AttributeError "feature_importances_"`, which aborts
the importance section and every section after it. -/
theorem C4_amended (a : Artifact) (x : DF) (h : a.featImportances = none) :
    importanceOuts a x = .error (.attributeError "feature_importances_") := by
  unfold importanceOuts
  rw [h]

theorem C4_witness :
    artifactNoImp.featImportances = none ∧
    importanceOuts artifactNoImp xTestDF =
      Except.error (PyErr.attributeError "feature_importances_") :=
  ⟨rfl, C4_amended artifactNoImp xTestDF rfl⟩

/-- C5 counterexample: the claim says the trend chart plots exactly the
present subset of the three indicator columns and never fails for a
proper subset.  On `dfC5` (has `period`, `allItemsYearOn` and
`foodYearOn`, but not `allItemsLessFrmProdAndEnergyYearOn`) the loop at
lines 90-91 raises `KeyError` on the missing column, no chart is
rendered, and the run `envC5` aborts there. -/
theorem C5_counterexample :
    trendStep dfC5 = Except.error (PyErr.keyError "allItemsLessFrmProdAndEnergyYearOn") ∧
    (runApp envC5).2 = some (PyErr.keyError "allItemsLessFrmProdAndEnergyYearOn") := by
  exact ⟨rfl, by decide⟩

/-- C5 (amended): the trend chart requires all three indicator columns:
when all are present it plots exactly the three lines; when any is
absent, the section raises an uncaught `KeyError` on the first missing
column (and renders no chart). -/
theorem C5_amended :
    (∀ df : DF, (∀ c ∈ inflationVars, df.has c = true) →
        trendStep df = .ok (.trendChart inflationVars)) ∧
    (∀ (df : DF) (c : String), firstMissing df inflationVars = some c →
        trendStep df = .error (.keyError c)) := by
  constructor
  · intro df h
    unfold trendStep
    rw [show firstMissing df inflationVars = none from
      List.find?_eq_none.mpr (fun c hc => by simp [h c hc])]
  · intro df c h
    unfold trendStep
    rw [h]

theorem C5_witness :
    trendStep dfFull = Except.ok (Out.trendChart inflationVars) ∧
    trendStep dfC5 = Except.error (PyErr.keyError "allItemsLessFrmProdAndEnergyYearOn") :=
  ⟨C5_amended.1 dfFull (by decide), C5_amended.2 dfC5 _ (by decide)⟩

/-- C6 counterexample: the claim says the heatmap is produced exactly
when at least two of the four candidate columns are present.  On `dfC6`,
which has exactly two of them (`allItemsYearOn`, `moneySupply_M3`), the
fixed four-column selection `merge_df[[...]]` at line 106 instead raises
`KeyError` on a missing candidate and no heatmap is produced. -/
theorem C6_counterexample :
    heatmapStep dfC6 = Except.error (PyErr.keyError "moneySupply_M2") := rfl

/-- C6 (amended): the heatmap is produced exactly when all four candidate
columns are present (any absence raises an uncaught `KeyError` on the
first missing candidate).  When produced, the rendered matrix is the
Pearson correlation matrix over the fixed four-column list (so it is
4 × 4, hence square), it is symmetric, and each diagonal entry equals 1
provided the corresponding column has nonzero variance (for a
zero-variance column the computation divides 0 by 0 and the diagonal
entry is not 1, matching pandas producing NaN there). -/
theorem C6_amended :
    (∀ df : DF, (∀ c ∈ corrCandidates, df.has c = true) →
        heatmapStep df = .ok (.heatmap corrCandidates (corrCandidates.map df.col))) ∧
    (∀ (df : DF) (c : String), firstMissing df corrCandidates = some c →
        heatmapStep df = .error (.keyError c)) ∧
    corrCandidates.length = 4 ∧
    (∀ (data : List (List ℚ)) (i j : ℕ), corrEntry data i j = corrEntry data j i) ∧
    (∀ (data : List (List ℚ)) (i : ℕ),
        covSum (data.getD i []) (data.getD i []) ≠ 0 → corrEntry data i i = 1) := by
  refine ⟨?_, ?_, rfl, corrEntry_symm, corrEntry_diag⟩
  · intro df h
    unfold heatmapStep
    rw [show firstMissing df corrCandidates = none from
      List.find?_eq_none.mpr (fun c hc => by simp [h c hc])]
  · intro df c h
    unfold heatmapStep
    rw [h]

theorem C6_witness :
    heatmapStep dfFull =
      Except.ok (Out.heatmap corrCandidates (corrCandidates.map dfFull.col)) ∧
    heatmapStep dfC6 = Except.error (PyErr.keyError "moneySupply_M2") ∧
    corrEntry [[0, 2], [1, 5]] 0 1 = corrEntry [[0, 2], [1, 5]] 1 0 ∧
    corrEntry [[0, 2], [1, 5]] 0 0 = 1 :=
  ⟨C6_amended.1 dfFull (by decide),
   C6_amended.2.1 dfC6 _ (by decide),
   C6_amended.2.2.2.1 [[0, 2], [1, 5]] 0 1,
   C6_amended.2.2.2.2 [[0, 2], [1, 5]] 0
     (by norm_num [covSum, dot, dev, mean])⟩

/-- C7: a user upload whose `predict` call fails is caught by the
`try/except` at lines 205-221 and rendered as the inline error message
`"Error making predictions: ..."`; the run does not crash (no uncaught
exception), all sections rendered earlier in the same pass appear
unchanged before it, and the footer still renders after it. -/
theorem C7_predict_failure_caught :
    (∀ (a : Artifact) (udf : DF) (e : PyErr), a.predictFn udf = .error e →
        uploadRun a (some (.ok udf)) =
          ([.text uploadHeader, .text uploadedMsg, .uploadPreview (udf.rows.take 5),
            .errorMsg ("Error making predictions: " ++ e.message)], none)) ∧
    (∀ (env : Env) (a : Artifact) (udf : DF) (e : PyErr),
        env.modelLoad = .ok a → env.upload = some (.ok udf) →
        a.predictFn udf = .error e →
        (edaRun env.merge).2 = none →
        (modelBody a env.xTest env.yTest).2 = none →
        (runApp env).2 = none ∧
        (runApp env).1 = (edaRun env.merge).1 ++ (modelBody a env.xTest env.yTest).1 ++
          [.text uploadHeader, .text uploadedMsg, .uploadPreview (udf.rows.take 5),
           .errorMsg ("Error making predictions: " ++ e.message), .text footerText]) := by
  constructor
  · intro a udf e hp
    simp [uploadRun, hp]
  · intro env a udf e hm hu hp he hb
    rw [runApp_decomp env a hm he hb, hu]
    simp [uploadRun, seqRun, hp, List.append_assoc]

theorem C7_witness :
    (runApp envC7).2 = none ∧
    (runApp envC7).1 = (edaRun envC7.merge).1 ++
      (modelBody artifactC7 envC7.xTest envC7.yTest).1 ++
      [Out.text uploadHeader, Out.text uploadedMsg,
       Out.uploadPreview (uploadBadDF.rows.take 5),
       Out.errorMsg ("Error making predictions: " ++
         (PyErr.valueError "feature names mismatch").message),
       Out.text footerText] :=
  C7_predict_failure_caught.2 envC7 artifactC7 uploadBadDF _ rfl rfl rfl
    (by decide) (by decide)

/-- C8 counterexample: the claim says that with more than 15 features the
15 returned rows are strictly descending by score.  With 16 features all
scoring 2 (`f16`, `i16`), `sort_values(..., ascending=False).head(15)`
returns 15 rows of equal scores, which are not strictly descending. -/
theorem C8_counterexample :
    (featureImportanceTop15 f16 i16).length = 15 ∧
    strictDescB ((featureImportanceTop15 f16 i16).map Prod.snd) = false := by
  exact ⟨by decide, by decide⟩

/-- C8 (amended): the ranking pairs the Nth score with the Nth feature
name (every returned row is one of the zipped pairs), sorts in descending
— that is, non-increasing, not necessarily strictly decreasing — order by
score, and retains the top 15 (`min 15 n` rows for `n` features); on the
spec's example, importances `[0.1, 0.5, 0.2]` with features
`["a","b","c"]` give top-1 result `("b", 0.5)`. -/
theorem C8_amended :
    (∀ (f : List String) (i : List ℚ), f.length = i.length →
        ((featureImportanceTop15 f i).map Prod.snd).Sorted (· ≥ ·) ∧
        (featureImportanceTop15 f i).length = min 15 f.length ∧
        featureImportanceTop15 f i ⊆ f.zip i) ∧
    (featureImportanceTop15 ["a", "b", "c"] [1/10, 1/2, 1/5]).head? =
      some ("b", 1/2) := by
  constructor
  · intro f i h
    refine ⟨?_, ?_, ?_⟩
    · have hs : (List.insertionSort impRel (f.zip i)).Sorted impRel :=
        List.sorted_insertionSort impRel (f.zip i)
      have ht : (featureImportanceTop15 f i).Pairwise impRel :=
        List.Pairwise.sublist (List.take_sublist _ _) hs
      exact List.pairwise_map.mpr ht
    · have hlen : (List.insertionSort impRel (f.zip i)).length = f.length := by
        rw [(List.perm_insertionSort impRel (f.zip i)).length_eq,
          List.length_zip, h]
        exact min_self _
      rw [featureImportanceTop15, List.length_take, hlen]
    · intro p hp
      exact (List.perm_insertionSort impRel (f.zip i)).subset
        (List.take_subset _ _ hp)
  · norm_num [featureImportanceTop15, List.insertionSort, List.orderedInsert, impRel]

theorem C8_witness :
    ((featureImportanceTop15 f16 i16).map Prod.snd).Sorted (· ≥ ·) ∧
    (featureImportanceTop15 f16 i16).length = min 15 f16.length ∧
    featureImportanceTop15 f16 i16 ⊆ f16.zip i16 :=
  C8_amended.1 f16 i16 (by decide)

/-- C9: the upload parse is outside the guarded region.  A parse failure
is an uncaught exception that aborts the rest of the page (the run ends
with that exception, no inline error message and no footer are rendered),
while on a successful parse the preview is rendered before any prediction
is attempted (the first three outputs of the upload section are the
header, the success message, and the preview, whatever `predict` then
does). -/
theorem C9_parse_unguarded :
    (∀ (a : Artifact) (e : PyErr),
        uploadRun a (some (.error e)) = ([.text uploadHeader], some e)) ∧
    (∀ (a : Artifact) (udf : DF),
        (uploadRun a (some (.ok udf))).1.take 3 =
          [.text uploadHeader, .text uploadedMsg, .uploadPreview (udf.rows.take 5)]) ∧
    (∀ (env : Env) (a : Artifact) (e : PyErr),
        env.modelLoad = .ok a → env.upload = some (.error e) →
        (edaRun env.merge).2 = none →
        (modelBody a env.xTest env.yTest).2 = none →
        (runApp env).2 = some e ∧
        (runApp env).1 = (edaRun env.merge).1 ++ (modelBody a env.xTest env.yTest).1 ++
          [.text uploadHeader]) := by
  refine ⟨fun a e => rfl, ?_, ?_⟩
  · intro a udf
    unfold uploadRun
    cases hp : a.predictFn udf <;> simp [hp]
  · intro env a e hm hu he hb
    rw [runApp_decomp env a hm he hb, hu]
    simp [uploadRun, seqRun, List.append_assoc]

theorem C9_witness :
    (runApp envC9).2 = some (PyErr.other "ParserError") ∧
    (runApp envC9).1 = (edaRun envC9.merge).1 ++
      (modelBody artifactGood envC9.xTest envC9.yTest).1 ++ [Out.text uploadHeader] :=
  C9_parse_unguarded.2.2 envC9 artifactGood _ rfl rfl (by decide) (by decide)

/-- C10: line 153 assigns the whole `y_test` column positionally with no
explicit verification; pandas accepts the assignment exactly when
`y_test` has as many rows as the predictions, and any mismatch raises
`ValueError`, which is uncaught and makes the model section (and the rest
of the run) fail rather than degrade. -/
theorem C10_positional_assignment :
    (∀ preds y : List ℚ,
        (∃ t, assignTrueValues preds y = .ok t) ↔ y.length = preds.length) ∧
    (∀ (env : Env) (a : Artifact) (preds : List ℚ),
        env.modelLoad = .ok a → a.predictFn env.xTest = .ok preds →
        env.yTest.length ≠ preds.length →
        (edaRun env.merge).2 = none →
        (runApp env).2 =
          some (.valueError "Length of values does not match length of index")) := by
  constructor
  · intro preds y
    by_cases h : y.length = preds.length <;> simp [assignTrueValues, h]
  · intro env a preds hm hp hl he
    unfold runApp
    rw [prodEtaNone _ he, hm]
    simp [seqRun, modelBody, hp, assignTrueValues, hl]

theorem C10_witness :
    (∃ t, assignTrueValues [1, 1] [5, 6] = Except.ok t) ∧
    (runApp envC10).2 =
      some (PyErr.valueError "Length of values does not match length of index") :=
  ⟨(C10_positional_assignment.1 [1, 1] [5, 6]).mpr rfl,
   C10_positional_assignment.2 envC10 artifactGood [1, 1] rfl rfl
     (by decide) (by decide)⟩

end InfApp
